import Mathlib

set_option autoImplicit false

/-!
Shallow embedding of the storage core of the movie-catalog manager:
the two store implementations `StorageCsv` (storage_csv.py) and
`StorageJson` (storage_json.py).  Python dicts are modelled as ordered
association lists (insertion order, unique keys on reachable states),
Python values as `PyVal`, and the backing file of each store as the
data it holds (the csv layer additionally models the stringification
performed by `csv.DictWriter`/`csv.DictReader`).
-/

namespace Movies

/-- A Python value as it occurs in this program: a string, an integer,
or a float carried by its decimal literal (the `json` module and `str`
round-trip such literals exactly, so the literal is a faithful carrier). -/
inductive PyVal where
  | str (s : String)
  | int (n : Int)
  | float (lit : String)
deriving DecidableEq, Repr

/-- Python `str(v)`: strings unchanged, numbers printed. -/
def pyStr : PyVal → String
  | .str s => s
  | .int n => toString n
  | .float lit => lit

/-- Whether a Python value is a string. -/
def isStr : PyVal → Bool
  | .str _ => true
  | _ => false

/-- Python `s.lower()` (ASCII case folding, which covers every title this
development evaluates on). -/
def pyLower (s : String) : String := String.mk (s.toList.map Char.toLower)

/-- Python substring membership `needle in hay` on strings. -/
def strIn (needle hay : String) : Bool :=
  (List.range (hay.toList.length + 1)).any fun i =>
    (hay.toList.drop i).take needle.toList.length == needle.toList

/-- Python dict key membership `k in d`. -/
def keyMem {α : Type} (k : String) (l : List (String × α)) : Bool :=
  l.any fun kv => kv.1 == k

/-- Python dict lookup `d[k]` (first occurrence; reachable dicts have
unique keys). -/
def getVal? {α : Type} (k : String) : List (String × α) → Option α
  | [] => none
  | kv :: rest => if kv.1 == k then some kv.2 else getVal? k rest

/-- Python dict assignment `d[k] = v`: replaces the value in place if the
key is present (keeping its position, as Python dicts do), otherwise
appends the pair at the end (insertion order). -/
def setKey {α : Type} (k : String) (v : α) : List (String × α) → List (String × α)
  | [] => [(k, v)]
  | kv :: rest => if kv.1 == k then (k, v) :: rest else kv :: setKey k v rest

/-- A movie attribute object of the structured-document store: the
sub-mapping stored under a title (keys such as `year`, `rating`,
`image-url`, `note`). -/
abbrev Mv := List (String × PyVal)

/-- The structured document: a mapping from title to attribute object. -/
abbrev Doc := List (String × Mv)

namespace StorageJson

/-- Embeds `StorageJson.list_movies`: returns `self.data` directly. -/
def list_movies (d : Doc) : Doc := d

/-- Embeds `StorageJson.add_movie`: rejects an exactly-present title, otherwise
stores `{year, rating, image-url}` under the title and persists. -/
def add_movie (d : Doc) (title : String) (year rating poster : PyVal) :
    String × Doc :=
  if keyMem title d then ("Movie already exists", d)
  else (title ++ " has been added to the database",
        setKey title [("year", year), ("rating", rating), ("image-url", poster)] d)

/-- Embeds `StorageJson.delete_movie`: scans the stored titles in order; on the
first case-insensitive match deletes that entry and persists, else
reports not-found. -/
def delete_movie (title : String) : Doc → String × Doc
  | [] => (title ++ " does not exist in the database", [])
  | (k, v) :: rest =>
    if pyLower title == pyLower k then
      (title ++ " has been deleted from the database", rest)
    else
      let r := delete_movie title rest
      (r.1, (k, v) :: r.2)

/-- Embeds `StorageJson.update_movie`: scans the stored entries in order; on the
first entry whose title matches case-insensitively and that has an
`image-url` key, sets `note` on that entry (under its original stored
title) and persists, else returns the combined failure string. -/
def update_movie (title notes : String) : Doc → String × Doc
  | [] => ("Movie does not exist or does not have an \x27image-url\x27 field.", [])
  | (k, v) :: rest =>
    if pyLower title == pyLower k && keyMem "image-url" v then
      ("Note added to the movie \x27" ++ k ++ "\x27 successfully. Now try to hover over the movie",
       (k, setKey "note" (.str notes) v) :: rest)
    else
      let r := update_movie title notes rest
      (r.1, (k, v) :: r.2)

/-- Persistence of the structured-document store: `json.dump` followed by `json.load` reproduces the document exactly
(strings, integers and float literals all survive the text form), so the
persistence round trip of this store is the identity on documents. -/
def jsonRoundTrip (d : Doc) : Doc := d

end StorageJson

/-- One in-memory row of the delimited-text store.  The Python rows are
dicts; every row this program creates or reads has exactly the keys
`title`, `year`, `rating`, `poster` and (for rows read from the file or
annotated by `update_movie`) `notes`, with a string title, so the row is
embedded as a record with an optional `notes` field. -/
structure Row where
  title : String
  year : PyVal
  rating : PyVal
  poster : PyVal
  notes : Option PyVal
deriving DecidableEq, Repr

/-- The result of `StorageCsv.list_movies`: either the sentinel string
returned on an empty projection or the title-keyed mapping. -/
inductive ListResult where
  | empty (msg : String)
  | table (m : List (String × Mv))
deriving DecidableEq, Repr

namespace StorageCsv

/-- The projection `{'year': …, 'rating': …, 'poster': …}` built by
`list_movies` for one row. -/
def projRow (r : Row) : Mv :=
  [("year", r.year), ("rating", r.rating), ("poster", r.poster)]

/-- The dictionary built by the `for key in self.data` loop of
`list_movies`: `dictionary[key[title]] = {...}` in row order. -/
def buildDict (data : List Row) : List (String × Mv) :=
  data.foldl (fun d r => setKey r.title (projRow r) d) []

/-- Embeds `StorageCsv.list_movies`: the projection dictionary, or the string
`"Empty Database..."` when the dictionary is empty. -/
def list_movies (data : List Row) : ListResult :=
  let d := buildDict data
  if d.isEmpty then .empty "Empty Database..." else .table d

/-- Python `title in movie_data` where `movie_data = self.list_movies()`:
key membership when it is a dict, substring membership when it is the
sentinel string. -/
def movieMem (title : String) : ListResult → Bool
  | .empty msg => strIn title msg
  | .table m => keyMem title m

/-- Embeds `StorageCsv.add_movie`: membership test against `list_movies()`,
then append `{title, year, rating, poster}` (no `notes` key) and rewrite
the file. -/
def add_movie (data : List Row) (title : String) (year rating poster : PyVal) :
    String × List Row :=
  if movieMem title (list_movies data) then ("Movie already exists", data)
  else (title ++ " added to the database",
        data ++ [⟨title, year, rating, poster, none⟩])

/-- Embeds `StorageCsv.delete_movie`: scans for the first exact title match,
removes it (`self.data.remove(movie)` removes the first equal row, which
is the matched one since no earlier row carries this title) and rewrites
the file; else reports not-found. -/
def delete_movie (title : String) : List Row → String × List Row
  | [] => (title ++ " does not exist in the database", [])
  | r :: rest =>
    if title == r.title then
      (title ++ " has been deleted from the database", rest)
    else
      let res := delete_movie title rest
      (res.1, r :: res.2)

/-- Embeds `StorageCsv.update_movie`: sets `notes` on every row whose title
matches exactly, unconditionally rewrites the file, then decides the
status message by a second scan over the (already mutated) rows. -/
def update_movie (data : List Row) (title notes : String) :
    String × List Row :=
  let data' := data.map fun r =>
    if title == r.title then { r with notes := some (.str notes) } else r
  if data'.any (fun r => r.title == title) then
    (title ++ " has been updated", data')
  else
    (title ++ " does not exist", data')

/-- One line written by `csv.DictWriter.writerow`: the five fields in
header order, non-string values stringified with `str`, the missing
`notes` key filled with the rest value `""`. -/
def writeRow (r : Row) : List String :=
  [r.title, pyStr r.year, pyStr r.rating, pyStr r.poster,
   match r.notes with | some v => pyStr v | none => ""]

/-- The data lines of the backing file after a full rewrite (the constant
header line is kept implicit). -/
def writeCsv (data : List Row) : List (List String) := data.map writeRow

/-- One row as `csv.DictReader` yields it: all five fields read back as
strings. -/
def readRow (cells : List String) : Row :=
  { title := cells.getD 0 "",
    year := .str (cells.getD 1 ""),
    rating := .str (cells.getD 2 ""),
    poster := .str (cells.getD 3 ""),
    notes := some (.str (cells.getD 4 "")) }

/-- Embeds `StorageCsv.__init__` reading the backing file into `self.data`. -/
def readCsv (rows : List (List String)) : List Row := rows.map readRow

end StorageCsv

/-- The behaviour the spec prescribes for `StorageJson.delete_movie`:
a case-insensitive scan over titles that removes the first entry whose
title matches case-insensitively, reporting not-found otherwise. -/
def deleteSpecC4 (d : Doc) (title : String) : String × Doc :=
  if d.any (fun kv => pyLower title == pyLower kv.1) then
    (title ++ " has been deleted from the database",
     d.eraseP fun kv => pyLower title == pyLower kv.1)
  else (title ++ " does not exist in the database", d)

/-! ### Association-list lemmas -/

theorem getVal?_setKey_self {α : Type} (k : String) (v : α) :
    ∀ l : List (String × α), getVal? k (setKey k v l) = some v := by
  intro l
  induction l with
  | nil => simp [setKey, getVal?]
  | cons kv rest ih =>
    by_cases h : kv.1 = k
    · simp [setKey, getVal?, h]
    · simp [setKey, getVal?, h, ih]

theorem setKey_of_not_mem {α : Type} (k : String) (v : α) :
    ∀ l : List (String × α), keyMem k l = false → setKey k v l = l ++ [(k, v)] := by
  intro l
  induction l with
  | nil => simp [setKey]
  | cons kv rest ih =>
    intro h
    simp only [keyMem, List.any_cons, Bool.or_eq_false_iff] at h
    simp [setKey, beq_eq_false_iff_ne.mp h.1, ih (by simpa [keyMem] using h.2)]

theorem keyMem_of_getVal?_some {α : Type} (k : String) (v : α) :
    ∀ l : List (String × α), getVal? k l = some v → keyMem k l = true := by
  intro l
  induction l with
  | nil => simp [getVal?]
  | cons kv rest ih =>
    by_cases h : kv.1 = k
    · simp [getVal?, keyMem, h]
    · intro hg
      simp only [getVal?, h, if_neg, beq_eq_false_iff_ne.mpr h, Bool.false_eq_true,
        if_false] at hg
      have hr := ih hg
      simp only [keyMem, List.any_cons, Bool.or_eq_true]
      exact Or.inr hr

theorem setKey_ne_nil {α : Type} (k : String) (v : α) :
    ∀ l : List (String × α), setKey k v l ≠ [] := by
  intro l
  cases l with
  | nil => simp [setKey]
  | cons kv rest =>
    by_cases h : kv.1 = k <;> simp [setKey, h]

theorem mem_setKey {α : Type} (k : String) (v : α) :
    ∀ l : List (String × α), ∀ kv ∈ setKey k v l, kv = (k, v) ∨ kv ∈ l := by
  intro l
  induction l with
  | nil => simp [setKey]
  | cons hd rest ih =>
    intro kv hkv
    by_cases h : hd.1 = k
    · simp only [setKey, h, beq_self_eq_true, if_true, List.mem_cons] at hkv
      rcases hkv with h1 | h2
      · exact Or.inl h1
      · exact Or.inr (List.mem_cons_of_mem _ h2)
    · simp only [setKey, beq_eq_false_iff_ne.mpr h, Bool.false_eq_true, if_false,
        List.mem_cons] at hkv
      rcases hkv with h1 | h2
      · exact Or.inr (h1 ▸ List.mem_cons_self _ _)
      · rcases ih kv h2 with h3 | h4
        · exact Or.inl h3
        · exact Or.inr (List.mem_cons_of_mem _ h4)

theorem getVal?_append {α : Type} (k : String) :
    ∀ l l2 : List (String × α), keyMem k l = false →
      getVal? k (l ++ l2) = getVal? k l2 := by
  intro l l2
  induction l with
  | nil => intro _; rfl
  | cons kv rest ih =>
    intro h
    simp only [keyMem, List.any_cons, Bool.or_eq_false_iff] at h
    simp only [List.cons_append, getVal?, h.1, Bool.false_eq_true, if_false]
    exact ih (by simpa [keyMem] using h.2)

theorem ne_of_keyMem_false {α : Type} {k : String} {l : List (String × α)}
    (h : keyMem k l = false) : ∀ kv ∈ l, kv.1 ≠ k := by
  intro kv hkv
  simp only [keyMem, List.any_eq_false] at h
  simpa using h kv hkv

theorem map_self {α : Type} (f : α → α) :
    ∀ l : List α, (∀ a ∈ l, f a = a) → l.map f = l := by
  intro l
  induction l with
  | nil => intro _; rfl
  | cons a rest ih =>
    intro h
    simp only [List.map_cons, h a (List.mem_cons_self _ _),
      ih fun a2 ha2 => h a2 (List.mem_cons_of_mem _ ha2)]

theorem str_pyStr_of_isStr {v : PyVal} (h : isStr v = true) :
    PyVal.str (pyStr v) = v := by
  cases v <;> simp [isStr, pyStr] at h ⊢

/-! ### Lemmas on the delimited-text store -/

namespace StorageCsv

theorem buildDict_append_single (data : List Row) (r : Row) :
    buildDict (data ++ [r]) = setKey r.title (projRow r) (buildDict data) := by
  simp [buildDict, List.foldl_append]

theorem foldl_setKey_ne_nil :
    ∀ (data : List Row) (acc : List (String × Mv)), acc ≠ [] →
      data.foldl (fun d r => setKey r.title (projRow r) d) acc ≠ [] := by
  intro data
  induction data with
  | nil => intro acc h; simpa using h
  | cons r rest ih =>
    intro acc _
    simp only [List.foldl_cons]
    exact ih _ (setKey_ne_nil _ _ _)

theorem buildDict_ne_nil (data : List Row) (h : data ≠ []) : buildDict data ≠ [] := by
  cases data with
  | nil => exact absurd rfl h
  | cons r rest =>
    simp only [buildDict, List.foldl_cons]
    exact foldl_setKey_ne_nil rest _ (setKey_ne_nil _ _ _)

theorem mem_foldl_setKey :
    ∀ (data : List Row) (acc : List (String × Mv)) (kv : String × Mv),
      kv ∈ data.foldl (fun d r => setKey r.title (projRow r) d) acc →
      kv ∈ acc ∨ ∃ r ∈ data, kv = (r.title, projRow r) := by
  intro data
  induction data with
  | nil => intro acc kv h; exact Or.inl (by simpa using h)
  | cons r rest ih =>
    intro acc kv h
    simp only [List.foldl_cons] at h
    rcases ih _ kv h with h1 | h2
    · rcases mem_setKey _ _ _ kv h1 with h3 | h4
      · exact Or.inr ⟨r, List.mem_cons_self _ _, h3⟩
      · exact Or.inl h4
    · obtain ⟨r2, hr2, hkv⟩ := h2
      exact Or.inr ⟨r2, List.mem_cons_of_mem _ hr2, hkv⟩

theorem foldl_setKey_map_congr (f : Row → Row) :
    ∀ data : List Row,
      (∀ r ∈ data, (f r).title = r.title ∧ projRow (f r) = projRow r) →
      ∀ acc, (data.map f).foldl (fun d r => setKey r.title (projRow r) d) acc
        = data.foldl (fun d r => setKey r.title (projRow r) d) acc := by
  intro data
  induction data with
  | nil => intro _ acc; rfl
  | cons r rest ih =>
    intro hf acc
    simp only [List.map_cons, List.foldl_cons]
    rw [(hf r (List.mem_cons_self _ _)).1, (hf r (List.mem_cons_self _ _)).2]
    exact ih (fun r2 hr2 => hf r2 (List.mem_cons_of_mem _ hr2)) _

theorem buildDict_map_congr (f : Row → Row) (data : List Row)
    (hf : ∀ r ∈ data, (f r).title = r.title ∧ projRow (f r) = projRow r) :
    buildDict (data.map f) = buildDict data :=
  foldl_setKey_map_congr f data hf []

theorem list_movies_map_congr (f : Row → Row) (data : List Row)
    (hf : ∀ r ∈ data, (f r).title = r.title ∧ projRow (f r) = projRow r) :
    list_movies (data.map f) = list_movies data := by
  simp [list_movies, buildDict_map_congr f data hf]

theorem list_movies_of_ne_nil (data : List Row) (h : data ≠ []) :
    list_movies data = ListResult.table (buildDict data) := by
  have hb := buildDict_ne_nil data h
  simp only [list_movies]
  cases hd : buildDict data with
  | nil => exact absurd hd hb
  | cons kv rest => simp [hd]

theorem update_movie_snd (data : List Row) (title notes : String) :
    (update_movie data title notes).2
      = data.map fun r =>
          if title == r.title then { r with notes := some (.str notes) } else r := by
  simp only [update_movie]
  split <;> rfl

theorem update_preserves_projection (title notes : String) (r : Row) :
    ((if title == r.title then { r with notes := some (.str notes) } else r) : Row).title
        = r.title ∧
      projRow (if title == r.title then { r with notes := some (.str notes) } else r)
        = projRow r := by
  by_cases h : (title == r.title) = true <;> simp [h, projRow]

theorem readRow_writeRow (r : Row) :
    readRow (writeRow r)
      = ⟨r.title, .str (pyStr r.year), .str (pyStr r.rating), .str (pyStr r.poster),
         some (.str (match r.notes with | some v => pyStr v | none => ""))⟩ := rfl

theorem delete_movie_not_found (title : String) :
    ∀ data : List Row, (∀ r ∈ data, r.title ≠ title) →
      delete_movie title data = (title ++ " does not exist in the database", data) := by
  intro data
  induction data with
  | nil => intro _; rfl
  | cons r rest ih =>
    intro h
    have hne : title ≠ r.title := fun he => h r (List.mem_cons_self _ _) he.symm
    simp only [delete_movie, beq_eq_false_iff_ne.mpr hne, Bool.false_eq_true, if_false]
    rw [ih (fun r2 hr2 => h r2 (List.mem_cons_of_mem _ hr2))]

theorem delete_movie_found (title : String) (r : Row) (post : List Row)
    (hr : r.title = title) :
    ∀ pre : List Row, (∀ r2 ∈ pre, r2.title ≠ title) →
      delete_movie title (pre ++ r :: post)
        = (title ++ " has been deleted from the database", pre ++ post) := by
  intro pre
  induction pre with
  | nil =>
    intro _
    simp [delete_movie, hr]
  | cons r2 rest ih =>
    intro h
    have hne : title ≠ r2.title := fun he => h r2 (List.mem_cons_self _ _) he.symm
    simp only [List.cons_append, delete_movie, beq_eq_false_iff_ne.mpr hne,
      Bool.false_eq_true, if_false, List.append_eq]
    rw [ih (fun r3 hr3 => h r3 (List.mem_cons_of_mem _ hr3))]

end StorageCsv

/-! ### Lemmas on the structured-document store -/

namespace StorageJson

theorem delete_movie_no_ci_match (title : String) :
    ∀ d : Doc, (∀ kv ∈ d, pyLower title ≠ pyLower kv.1) →
      delete_movie title d = (title ++ " does not exist in the database", d) := by
  intro d
  induction d with
  | nil => intro _; rfl
  | cons kv rest ih =>
    intro h
    obtain ⟨k, v⟩ := kv
    have hne : pyLower title ≠ pyLower k := h (k, v) (List.mem_cons_self _ _)
    simp only [delete_movie, beq_eq_false_iff_ne.mpr hne, Bool.false_eq_true, if_false]
    rw [ih (fun kv2 hkv2 => h kv2 (List.mem_cons_of_mem _ hkv2))]

theorem delete_movie_first_ci_match (title k : String) (v : Mv) (post : Doc)
    (hk : pyLower title = pyLower k) :
    ∀ pre : Doc, (∀ kv ∈ pre, pyLower title ≠ pyLower kv.1) →
      delete_movie title (pre ++ (k, v) :: post)
        = (title ++ " has been deleted from the database", pre ++ post) := by
  intro pre
  induction pre with
  | nil =>
    intro _
    simp [delete_movie, hk]
  | cons kv rest ih =>
    intro h
    obtain ⟨k2, v2⟩ := kv
    have hne : pyLower title ≠ pyLower k2 := h (k2, v2) (List.mem_cons_self _ _)
    simp only [List.cons_append, delete_movie, beq_eq_false_iff_ne.mpr hne,
      Bool.false_eq_true, if_false, List.append_eq]
    rw [ih (fun kv2 hkv2 => h kv2 (List.mem_cons_of_mem _ hkv2))]

theorem update_movie_no_match (title notes : String) :
    ∀ d : Doc,
      (∀ kv ∈ d, ¬(pyLower title = pyLower kv.1 ∧ keyMem "image-url" kv.2 = true)) →
      update_movie title notes d
        = ("Movie does not exist or does not have an \x27image-url\x27 field.", d) := by
  intro d
  induction d with
  | nil => intro _; rfl
  | cons kv rest ih =>
    intro h
    obtain ⟨k, v⟩ := kv
    have hne : (pyLower title == pyLower k && keyMem "image-url" v) = false := by
      cases hb : (pyLower title == pyLower k && keyMem "image-url" v) with
      | false => rfl
      | true =>
        simp only [Bool.and_eq_true, beq_iff_eq] at hb
        exact absurd hb (h (k, v) (List.mem_cons_self _ _))
    simp only [update_movie, hne, Bool.false_eq_true, if_false]
    rw [ih (fun kv2 hkv2 => h kv2 (List.mem_cons_of_mem _ hkv2))]

theorem update_movie_first_match (title notes k : String) (v : Mv) (post : Doc)
    (hk : pyLower title = pyLower k) (hv : keyMem "image-url" v = true) :
    ∀ pre : Doc,
      (∀ kv ∈ pre, ¬(pyLower title = pyLower kv.1 ∧ keyMem "image-url" kv.2 = true)) →
      update_movie title notes (pre ++ (k, v) :: post)
        = ("Note added to the movie \x27" ++ k
            ++ "\x27 successfully. Now try to hover over the movie",
           pre ++ (k, setKey "note" (.str notes) v) :: post) := by
  intro pre
  induction pre with
  | nil =>
    intro _
    simp [update_movie, hk, hv]
  | cons kv rest ih =>
    intro h
    obtain ⟨k2, v2⟩ := kv
    have hne : (pyLower title == pyLower k2 && keyMem "image-url" v2) = false := by
      cases hb : (pyLower title == pyLower k2 && keyMem "image-url" v2) with
      | false => rfl
      | true =>
        simp only [Bool.and_eq_true, beq_iff_eq] at hb
        exact absurd hb (h (k2, v2) (List.mem_cons_self _ _))
    simp only [List.cons_append, update_movie, hne, Bool.false_eq_true, if_false,
      List.append_eq]
    rw [ih (fun kv2 hkv2 => h kv2 (List.mem_cons_of_mem _ hkv2))]

end StorageJson

/-! ### Claims -/

/-- C1: for both stores, from any state in which title `t` is not present,
a successful `add(t, y, r, p)` returns the success message and appends the
record, `list()` then maps `t` to a record with the given year, rating and
poster values, and a second `add` with the same title returns the
duplicate-key indicator "Movie already exists" and leaves the store (hence
the record stored under `t`) unchanged.  For the delimited-text store the
success of the first `add` is its own membership test coming back false,
which on a non-empty store is exactly absence of the title. -/
theorem claim1_add_list_duplicate :
    (∀ (d : Doc) (t : String) (y r p y2 r2 p2 : PyVal),
      keyMem t d = false →
      StorageJson.add_movie d t y r p
          = (t ++ " has been added to the database",
             d ++ [(t, [("year", y), ("rating", r), ("image-url", p)])]) ∧
        getVal? t (StorageJson.list_movies (StorageJson.add_movie d t y r p).2)
          = some [("year", y), ("rating", r), ("image-url", p)] ∧
        StorageJson.add_movie (StorageJson.add_movie d t y r p).2 t y2 r2 p2
          = ("Movie already exists", (StorageJson.add_movie d t y r p).2))
    ∧
    (∀ (data : List Row) (t : String) (y r p y2 r2 p2 : PyVal),
      StorageCsv.movieMem t (StorageCsv.list_movies data) = false →
      StorageCsv.add_movie data t y r p
          = (t ++ " added to the database", data ++ [⟨t, y, r, p, none⟩]) ∧
        (∃ m, StorageCsv.list_movies (StorageCsv.add_movie data t y r p).2
            = .table m ∧
          getVal? t m = some [("year", y), ("rating", r), ("poster", p)]) ∧
        StorageCsv.add_movie (StorageCsv.add_movie data t y r p).2 t y2 r2 p2
          = ("Movie already exists", (StorageCsv.add_movie data t y r p).2)) := by
  constructor
  · intro d t y r p y2 r2 p2 h
    have hadd : StorageJson.add_movie d t y r p
        = (t ++ " has been added to the database",
           d ++ [(t, [("year", y), ("rating", r), ("image-url", p)])]) := by
      simp only [StorageJson.add_movie, h, Bool.false_eq_true, if_false]
      rw [setKey_of_not_mem t _ d h]
    have hget : getVal? t (d ++ [(t, [("year", y), ("rating", r), ("image-url", p)])])
        = some [("year", y), ("rating", r), ("image-url", p)] := by
      rw [getVal?_append t d _ h]
      simp [getVal?]
    refine ⟨hadd, ?_, ?_⟩
    · rw [hadd]
      exact hget
    · rw [hadd]
      have hmem := keyMem_of_getVal?_some t _ _ hget
      simp [StorageJson.add_movie, hmem]
  · intro data t y r p y2 r2 p2 h
    have hadd : StorageCsv.add_movie data t y r p
        = (t ++ " added to the database", data ++ [⟨t, y, r, p, none⟩]) := by
      simp [StorageCsv.add_movie, h]
    have hlist : StorageCsv.list_movies (data ++ [⟨t, y, r, p, none⟩])
        = .table (setKey t (StorageCsv.projRow ⟨t, y, r, p, none⟩)
            (StorageCsv.buildDict data)) := by
      rw [StorageCsv.list_movies_of_ne_nil _ (by simp),
        StorageCsv.buildDict_append_single]
    have hget : getVal? t (setKey t (StorageCsv.projRow ⟨t, y, r, p, none⟩)
          (StorageCsv.buildDict data))
        = some (StorageCsv.projRow ⟨t, y, r, p, none⟩) := getVal?_setKey_self _ _ _
    refine ⟨hadd, ?_, ?_⟩
    · rw [hadd]
      exact ⟨_, hlist, by rw [hget]; rfl⟩
    · rw [hadd]
      have hmem : StorageCsv.movieMem t
          (StorageCsv.list_movies (data ++ [⟨t, y, r, p, none⟩])) = true := by
        rw [hlist]
        exact keyMem_of_getVal?_some t _ _ hget
      simp [StorageCsv.add_movie, hmem]

/-- C1 witness: both stores starting empty, adding "Up". -/
theorem claim1_witness :
    (keyMem "Up" ([] : Doc) = false ∧
      StorageJson.add_movie [] "Up" (.int 2009) (.float "8.2") (.str "url1")
          = ("Up has been added to the database",
             [("Up", [("year", .int 2009), ("rating", .float "8.2"),
                      ("image-url", .str "url1")])]) ∧
        getVal? "Up" (StorageJson.list_movies
            (StorageJson.add_movie [] "Up" (.int 2009) (.float "8.2") (.str "url1")).2)
          = some [("year", .int 2009), ("rating", .float "8.2"),
                  ("image-url", .str "url1")] ∧
        StorageJson.add_movie
            (StorageJson.add_movie [] "Up" (.int 2009) (.float "8.2") (.str "url1")).2
            "Up" (.int 2009) (.float "8.2") (.str "url1")
          = ("Movie already exists",
             (StorageJson.add_movie [] "Up" (.int 2009) (.float "8.2") (.str "url1")).2))
    ∧
    (StorageCsv.movieMem "Up" (StorageCsv.list_movies []) = false ∧
      StorageCsv.add_movie [] "Up" (.str "2009") (.float "8.2") (.str "url1")
          = ("Up added to the database",
             [⟨"Up", .str "2009", .float "8.2", .str "url1", none⟩]) ∧
        (∃ m, StorageCsv.list_movies
            (StorageCsv.add_movie [] "Up" (.str "2009") (.float "8.2") (.str "url1")).2
            = .table m ∧
          getVal? "Up" m
            = some [("year", .str "2009"), ("rating", .float "8.2"),
                    ("poster", .str "url1")]) ∧
        StorageCsv.add_movie
            (StorageCsv.add_movie [] "Up" (.str "2009") (.float "8.2") (.str "url1")).2
            "Up" (.str "2009") (.float "8.2") (.str "url1")
          = ("Movie already exists",
             (StorageCsv.add_movie [] "Up" (.str "2009") (.float "8.2") (.str "url1")).2)) :=
  ⟨⟨by decide,
    claim1_add_list_duplicate.1 [] "Up" (.int 2009) (.float "8.2") (.str "url1")
      (.int 2009) (.float "8.2") (.str "url1") (by decide)⟩,
   ⟨by decide,
    claim1_add_list_duplicate.2 [] "Up" (.str "2009") (.float "8.2") (.str "url1")
      (.str "2009") (.float "8.2") (.str "url1") (by decide)⟩⟩

/-- C2 counterexample: in the structured-document store holding only the
title "Up", the title "UP" is not present, yet `delete("UP")` does not
return the not-found status and `list()` does not stay unchanged — the
case-insensitive scan deletes the "Up" record. -/
theorem claim2_counterexample :
    keyMem "UP" [("Up", ([("year", PyVal.int 2009)] : Mv))] = false ∧
    StorageJson.delete_movie "UP" [("Up", [("year", PyVal.int 2009)])]
      = ("UP has been deleted from the database", []) := by
  exact ⟨by decide, by decide⟩

/-- C2 amended: `delete(t)` returns the not-found status and leaves the
store — hence `list()` — unchanged whenever no stored title matches `t`
under the store's own matching rule: exact equality for the
delimited-text store, case-insensitive equality for the
structured-document store. -/
theorem claim2_delete_absent :
    (∀ (data : List Row) (t : String), (∀ r ∈ data, r.title ≠ t) →
      StorageCsv.delete_movie t data
        = (t ++ " does not exist in the database", data)) ∧
    (∀ (d : Doc) (t : String), (∀ kv ∈ d, pyLower t ≠ pyLower kv.1) →
      StorageJson.delete_movie t d
        = (t ++ " does not exist in the database", d)) :=
  ⟨fun data t h => StorageCsv.delete_movie_not_found t data h,
   fun d t h => StorageJson.delete_movie_no_ci_match t d h⟩

/-- C2 witness: deleting "Down" from singleton stores holding "Up". -/
theorem claim2_witness :
    ((∀ r ∈ [(⟨"Up", .str "2009", .float "8.2", .str "url1", none⟩ : Row)],
        r.title ≠ "Down") ∧
      StorageCsv.delete_movie "Down"
          [⟨"Up", .str "2009", .float "8.2", .str "url1", none⟩]
        = ("Down does not exist in the database",
           [⟨"Up", .str "2009", .float "8.2", .str "url1", none⟩])) ∧
    ((∀ kv ∈ [("Up", ([("year", PyVal.int 2009)] : Mv))],
        pyLower "Down" ≠ pyLower kv.1) ∧
      StorageJson.delete_movie "Down" [("Up", [("year", PyVal.int 2009)])]
        = ("Down does not exist in the database",
           [("Up", [("year", PyVal.int 2009)])])) :=
  ⟨⟨by decide, claim2_delete_absent.1 _ "Down" (by decide)⟩,
   ⟨by decide, claim2_delete_absent.2 _ "Down" (by decide)⟩⟩

/-- C3 counterexample: in the structured-document store holding the two
distinct titles "UP" and "Up" (a state `add` can produce, since its
duplicate check is exact), `delete("Up")` does not remove the record
keyed "Up": it removes the other record "UP" — the first case-insensitive
match — so a record other than `t` changes. -/
theorem claim3_counterexample :
    keyMem "Up" [("UP", ([("year", PyVal.int 1)] : Mv)),
                 ("Up", [("year", PyVal.int 2)])] = true ∧
    StorageJson.delete_movie "Up"
        [("UP", [("year", PyVal.int 1)]), ("Up", [("year", PyVal.int 2)])]
      = ("Up has been deleted from the database",
         [("Up", [("year", PyVal.int 2)])]) := by
  exact ⟨by decide, by decide⟩

/-- C3 amended: `delete(t)` on a matched title removes exactly one record
and leaves every other record byte-identical (in order), with the store
shrinking by exactly one record.  The removed record is the first match
under the store's own matching rule: the exact-title match for the
delimited-text store (exactly the record keyed `t`, since titles are
unique there), the first case-insensitive match for the
structured-document store (the record keyed `t` whenever no earlier
stored title also matches `t` case-insensitively). -/
theorem claim3_delete_present :
    (∀ (pre post : List Row) (r : Row) (t : String), r.title = t →
      (∀ r2 ∈ pre, r2.title ≠ t) →
      StorageCsv.delete_movie t (pre ++ r :: post)
          = (t ++ " has been deleted from the database", pre ++ post) ∧
        (pre ++ post).length + 1 = (pre ++ r :: post).length) ∧
    (∀ (pre post : Doc) (k t : String) (v : Mv), pyLower t = pyLower k →
      (∀ kv ∈ pre, pyLower t ≠ pyLower kv.1) →
      StorageJson.delete_movie t (pre ++ (k, v) :: post)
          = (t ++ " has been deleted from the database", pre ++ post) ∧
        (pre ++ post).length + 1 = (pre ++ (k, v) :: post).length) := by
  constructor
  · intro pre post r t hr h
    refine ⟨StorageCsv.delete_movie_found t r post hr pre h, ?_⟩
    simp [List.length_append, Nat.add_assoc]
  · intro pre post k t v hk h
    refine ⟨StorageJson.delete_movie_first_ci_match t k v post hk pre h, ?_⟩
    simp [List.length_append, Nat.add_assoc]

/-- C3 witness: deleting the sole title "Up" from singleton stores. -/
theorem claim3_witness :
    (((⟨"Up", .str "2009", .float "8.2", .str "url1", none⟩ : Row).title = "Up") ∧
      (∀ r2 ∈ ([] : List Row), r2.title ≠ "Up") ∧
      StorageCsv.delete_movie "Up"
          [⟨"Up", .str "2009", .float "8.2", .str "url1", none⟩]
        = ("Up has been deleted from the database", []) ∧
      ([] : List Row).length + 1
        = [(⟨"Up", .str "2009", .float "8.2", .str "url1", none⟩ : Row)].length) ∧
    ((pyLower "up" = pyLower "Up") ∧
      (∀ kv ∈ ([] : Doc), pyLower "up" ≠ pyLower kv.1) ∧
      StorageJson.delete_movie "up" [("Up", [("year", PyVal.int 2009)])]
        = ("up has been deleted from the database", []) ∧
      ([] : Doc).length + 1 = [("Up", ([("year", PyVal.int 2009)] : Mv))].length) := by
  refine ⟨⟨by decide, by decide, ?_⟩, ⟨by decide, by decide, ?_⟩⟩
  · exact claim3_delete_present.1 [] [] ⟨"Up", .str "2009", .float "8.2", .str "url1", none⟩
      "Up" (by decide) (by decide)
  · exact claim3_delete_present.2 [] [] "Up" "up" [("year", PyVal.int 2009)]
      (by decide) (by decide)

/-- C4: `StorageJson.delete_movie` behaves exactly as specified — a
case-insensitive scan over the stored titles that removes the first
entry whose title matches the argument case-insensitively (persisting
the document), and that returns the not-found status and removes nothing
when no title matches. -/
theorem claim4_delete_spec_equiv :
    ∀ (d : Doc) (t : String), StorageJson.delete_movie t d = deleteSpecC4 d t := by
  intro d t
  induction d with
  | nil => rfl
  | cons kv rest ih =>
    obtain ⟨k, v⟩ := kv
    by_cases h : pyLower t = pyLower k
    · simp [StorageJson.delete_movie, deleteSpecC4, h, List.any_cons, List.eraseP_cons]
    · have hf : (pyLower t == pyLower k) = false := beq_eq_false_iff_ne.mpr h
      cases hb : rest.any (fun kv => pyLower t == pyLower kv.1) with
      | true =>
        simp [StorageJson.delete_movie, deleteSpecC4, hf, hb, ih, List.any_cons,
          List.eraseP_cons]
      | false =>
        simp [StorageJson.delete_movie, deleteSpecC4, hf, hb, ih, List.any_cons,
          List.eraseP_cons]

/-- C5: in the structured-document store, `update(t, note)` succeeds
exactly when some stored record matches `t` case-insensitively and has an
`image-url` field: when no stored record does, it returns the single
combined failure string and changes no state; when the first such record
is stored under key `k`, the note is stored on that record under its
original stored title key `k` and all other records are untouched. -/
theorem claim5_update_note :
    (∀ (d : Doc) (t n : String),
      (∀ kv ∈ d, ¬(pyLower t = pyLower kv.1 ∧ keyMem "image-url" kv.2 = true)) →
      StorageJson.update_movie t n d
        = ("Movie does not exist or does not have an \x27image-url\x27 field.", d)) ∧
    (∀ (pre post : Doc) (k t n : String) (v : Mv),
      pyLower t = pyLower k → keyMem "image-url" v = true →
      (∀ kv ∈ pre, ¬(pyLower t = pyLower kv.1 ∧ keyMem "image-url" kv.2 = true)) →
      StorageJson.update_movie t n (pre ++ (k, v) :: post)
        = ("Note added to the movie \x27" ++ k
            ++ "\x27 successfully. Now try to hover over the movie",
           pre ++ (k, setKey "note" (.str n) v) :: post)) :=
  ⟨fun d t n h => StorageJson.update_movie_no_match t n d h,
   fun pre post k t n v hk hv h =>
     StorageJson.update_movie_first_match t n k v post hk hv pre h⟩

/-- C5 witness: the Inception scenario — after the movie "Inception" with
poster "http://x/p.jpg" is stored, `update("inception", "great")`
succeeds and stores the note under the stored key "Inception"; and on a
store with no matching complete record the combined failure string comes
back unchanged. -/
theorem claim5_witness :
    ((pyLower "inception" = pyLower "Inception") ∧
      keyMem "image-url"
        ([("year", PyVal.str "2010"), ("rating", PyVal.float "8.8"),
          ("image-url", PyVal.str "http://x/p.jpg")] : Mv) = true ∧
      StorageJson.update_movie "inception" "great"
          [("Inception",
            [("year", PyVal.str "2010"), ("rating", PyVal.float "8.8"),
             ("image-url", PyVal.str "http://x/p.jpg")])]
        = ("Note added to the movie \x27Inception\x27 successfully. Now try to hover over the movie",
           [("Inception",
             [("year", PyVal.str "2010"), ("rating", PyVal.float "8.8"),
              ("image-url", PyVal.str "http://x/p.jpg"),
              ("note", PyVal.str "great")])])) ∧
    ((∀ kv ∈ [("Memento", ([("year", PyVal.str "2000")] : Mv))],
        ¬(pyLower "inception" = pyLower kv.1 ∧ keyMem "image-url" kv.2 = true)) ∧
      StorageJson.update_movie "inception" "great"
          [("Memento", [("year", PyVal.str "2000")])]
        = ("Movie does not exist or does not have an \x27image-url\x27 field.",
           [("Memento", [("year", PyVal.str "2000")])])) := by
  refine ⟨⟨by decide, by decide, ?_⟩, ⟨by decide, ?_⟩⟩
  · exact claim5_update_note.2 [] [] "Inception" "inception" "great"
      [("year", PyVal.str "2010"), ("rating", PyVal.float "8.8"),
       ("image-url", PyVal.str "http://x/p.jpg")] (by decide) (by decide) (by decide)
  · exact claim5_update_note.1 [("Memento", [("year", PyVal.str "2000")])]
      "inception" "great" (by decide)

/-- C6: in the delimited-text store, `list()` on the empty working set
returns the sentinel string "Empty Database..."; on a non-empty working
set it returns a mapping keyed by row titles whose values carry exactly
the fields `year`, `rating` and `poster` — never `notes`; and since the
projection drops `notes`, `list()` is unchanged by `update` setting a
note. -/
theorem claim6_csv_projection :
    (StorageCsv.list_movies [] = .empty "Empty Database...") ∧
    (∀ data : List Row, data ≠ [] →
      ∃ m, StorageCsv.list_movies data = .table m ∧ m ≠ [] ∧
        ∀ kv ∈ m, ∃ r ∈ data, kv.1 = r.title ∧
          kv.2 = [("year", r.year), ("rating", r.rating), ("poster", r.poster)]) ∧
    (∀ (data : List Row) (t n : String),
      StorageCsv.list_movies (StorageCsv.update_movie data t n).2
        = StorageCsv.list_movies data) := by
  refine ⟨rfl, ?_, ?_⟩
  · intro data h
    refine ⟨StorageCsv.buildDict data, StorageCsv.list_movies_of_ne_nil data h,
      StorageCsv.buildDict_ne_nil data h, ?_⟩
    intro kv hkv
    rcases StorageCsv.mem_foldl_setKey data [] kv hkv with h1 | h2
    · exact absurd h1 (List.not_mem_nil kv)
    · obtain ⟨r, hr, hkv2⟩ := h2
      exact ⟨r, hr, congrArg Prod.fst hkv2, congrArg Prod.snd hkv2⟩
  · intro data t n
    rw [StorageCsv.update_movie_snd]
    exact StorageCsv.list_movies_map_congr _ data fun r _ =>
      StorageCsv.update_preserves_projection t n r

/-- C6 witness: a one-row working set, listed before and after a note is
set by `update`. -/
theorem claim6_witness :
    ([(⟨"Up", .str "2009", .float "8.2", .str "url1", none⟩ : Row)] ≠ []) ∧
    (∃ m, StorageCsv.list_movies
          [⟨"Up", .str "2009", .float "8.2", .str "url1", none⟩] = .table m ∧
      m ≠ [] ∧
      ∀ kv ∈ m, ∃ r ∈ [(⟨"Up", .str "2009", .float "8.2", .str "url1", none⟩ : Row)],
        kv.1 = r.title ∧
        kv.2 = [("year", r.year), ("rating", r.rating), ("poster", r.poster)]) ∧
    StorageCsv.list_movies
        (StorageCsv.update_movie
          [⟨"Up", .str "2009", .float "8.2", .str "url1", none⟩] "Up" "fine").2
      = StorageCsv.list_movies [⟨"Up", .str "2009", .float "8.2", .str "url1", none⟩] :=
  ⟨by decide,
   claim6_csv_projection.2.1 [⟨"Up", .str "2009", .float "8.2", .str "url1", none⟩]
     (by decide),
   claim6_csv_projection.2.2 [⟨"Up", .str "2009", .float "8.2", .str "url1", none⟩]
     "Up" "fine"⟩

/-- C7: in the delimited-text store, `update(t, note)` with a title not
present in the working set returns the "does not exist" status and
changes no record: the working set is unchanged, so the unconditional
file rewrite persists exactly the prior contents and `list()` is
identical before and after. -/
theorem claim7_csv_update_absent (data : List Row) (t n : String)
    (h : ∀ r ∈ data, r.title ≠ t) :
    StorageCsv.update_movie data t n = (t ++ " does not exist", data) ∧
    StorageCsv.writeCsv (StorageCsv.update_movie data t n).2
      = StorageCsv.writeCsv data ∧
    StorageCsv.list_movies (StorageCsv.update_movie data t n).2
      = StorageCsv.list_movies data := by
  have hmap : (data.map fun r =>
      if t == r.title then { r with notes := some (.str n) } else r) = data := by
    apply map_self
    intro r hr
    simp [beq_eq_false_iff_ne.mpr fun he => h r hr he.symm]
  have hany : (data.any fun r => r.title == t) = false := by
    rw [List.any_eq_false]
    intro r hr
    simp [h r hr]
  have hupd : StorageCsv.update_movie data t n = (t ++ " does not exist", data) := by
    simp only [StorageCsv.update_movie, hmap, hany, Bool.false_eq_true, if_false]
  exact ⟨hupd, by rw [hupd], by rw [hupd]⟩

/-- C7 witness: updating the absent title "Down" on a one-row store. -/
theorem claim7_witness :
    (∀ r ∈ [(⟨"Up", .str "2009", .float "8.2", .str "url1", none⟩ : Row)],
      r.title ≠ "Down") ∧
    (StorageCsv.update_movie
          [⟨"Up", .str "2009", .float "8.2", .str "url1", none⟩] "Down" "x"
        = ("Down does not exist",
           [⟨"Up", .str "2009", .float "8.2", .str "url1", none⟩]) ∧
      StorageCsv.writeCsv (StorageCsv.update_movie
          [⟨"Up", .str "2009", .float "8.2", .str "url1", none⟩] "Down" "x").2
        = StorageCsv.writeCsv [⟨"Up", .str "2009", .float "8.2", .str "url1", none⟩] ∧
      StorageCsv.list_movies (StorageCsv.update_movie
          [⟨"Up", .str "2009", .float "8.2", .str "url1", none⟩] "Down" "x").2
        = StorageCsv.list_movies [⟨"Up", .str "2009", .float "8.2", .str "url1", none⟩]) :=
  ⟨by decide,
   claim7_csv_update_absent [⟨"Up", .str "2009", .float "8.2", .str "url1", none⟩]
     "Down" "x" (by decide)⟩

/-- C8 counterexample: writing the delimited-text file converts every
field with `str`, and reading yields strings, so the working set produced
by `add("Up", "2009", 8.2, "url1")` (the application passes the rating as
a float) does not reproduce the same `list()` after a fresh construction
from the just-written file: the rating comes back as the string "8.2",
a different value (in Python, `8.2 == "8.2"` is false). -/
theorem claim8_counterexample :
    StorageCsv.list_movies (StorageCsv.readCsv (StorageCsv.writeCsv
        [⟨"Up", PyVal.str "2009", PyVal.float "8.2", PyVal.str "url1", none⟩]))
      ≠ StorageCsv.list_movies
          [⟨"Up", PyVal.str "2009", PyVal.float "8.2", PyVal.str "url1", none⟩] := by
  decide

/-- C8 amended: the structured-document store round-trips `list()`
exactly; the delimited-text store round-trips `list()` exactly whenever
all stored year/rating/poster values are strings — non-string values are
persisted as their string form and read back as strings. -/
theorem claim8_round_trip :
    (∀ d : Doc, StorageJson.list_movies (StorageJson.jsonRoundTrip d)
        = StorageJson.list_movies d) ∧
    (∀ data : List Row,
      (∀ r ∈ data, isStr r.year = true ∧ isStr r.rating = true ∧ isStr r.poster = true) →
      StorageCsv.list_movies (StorageCsv.readCsv (StorageCsv.writeCsv data))
        = StorageCsv.list_movies data) := by
  refine ⟨fun d => rfl, ?_⟩
  intro data h
  have hmap : StorageCsv.readCsv (StorageCsv.writeCsv data)
      = data.map fun r => StorageCsv.readRow (StorageCsv.writeRow r) := by
    simp [StorageCsv.readCsv, StorageCsv.writeCsv, List.map_map, Function.comp_def]
  rw [hmap]
  apply StorageCsv.list_movies_map_congr
  intro r hr
  obtain ⟨hy, hra, hp⟩ := h r hr
  rw [StorageCsv.readRow_writeRow]
  exact ⟨rfl, by simp [StorageCsv.projRow, str_pyStr_of_isStr hy,
    str_pyStr_of_isStr hra, str_pyStr_of_isStr hp]⟩

/-- C8 witness: a one-record store in each format, all csv fields
strings. -/
theorem claim8_witness :
    (StorageJson.list_movies (StorageJson.jsonRoundTrip
          [("Up", [("year", PyVal.int 2009)])])
        = StorageJson.list_movies [("Up", [("year", PyVal.int 2009)])]) ∧
    ((∀ r ∈ [(⟨"Up", .str "2009", .str "8.2", .str "url1", none⟩ : Row)],
        isStr r.year = true ∧ isStr r.rating = true ∧ isStr r.poster = true) ∧
      StorageCsv.list_movies (StorageCsv.readCsv (StorageCsv.writeCsv
            [⟨"Up", .str "2009", .str "8.2", .str "url1", none⟩]))
        = StorageCsv.list_movies [⟨"Up", .str "2009", .str "8.2", .str "url1", none⟩]) :=
  ⟨claim8_round_trip.1 [("Up", [("year", PyVal.int 2009)])],
   ⟨by decide,
    claim8_round_trip.2 [⟨"Up", .str "2009", .str "8.2", .str "url1", none⟩]
      (by decide)⟩⟩

/-- C9 counterexample: on the structured-document store the duplicate
`add("Up", ...)` returns exactly "Movie already exists", a string that
does not contain "Up" — against the claim that the duplicate string
contains the title. -/
theorem claim9_counterexample :
    (StorageJson.add_movie
        (StorageJson.delete_movie "Down"
          (StorageJson.add_movie [] "Up" (.int 2009) (.float "8.2") (.str "url1")).2).2
        "Up" (.int 2009) (.float "8.2") (.str "url1")).1
      = "Movie already exists" ∧
    strIn "Up" "Movie already exists" = false := by
  exact ⟨by decide, by decide⟩

/-- C9 amended: starting from the empty document, `add("Up", 2009, 8.2,
"url1")` returns a success string containing "Up"; `delete("Down")`
returns a not-found string containing "Down"; and a second `add("Up",
...)` returns the duplicate string "Movie already exists", which does
not name the title. -/
theorem claim9_end_to_end :
    StorageJson.add_movie [] "Up" (.int 2009) (.float "8.2") (.str "url1")
        = ("Up has been added to the database",
           [("Up", [("year", .int 2009), ("rating", .float "8.2"),
                    ("image-url", .str "url1")])]) ∧
    strIn "Up" "Up has been added to the database" = true ∧
    StorageJson.delete_movie "Down"
        [("Up", [("year", .int 2009), ("rating", .float "8.2"),
                 ("image-url", .str "url1")])]
        = ("Down does not exist in the database",
           [("Up", [("year", .int 2009), ("rating", .float "8.2"),
                    ("image-url", .str "url1")])]) ∧
    strIn "Down" "Down does not exist in the database" = true ∧
    StorageJson.add_movie
        [("Up", [("year", .int 2009), ("rating", .float "8.2"),
                 ("image-url", .str "url1")])]
        "Up" (.int 2009) (.float "8.2") (.str "url1")
        = ("Movie already exists",
           [("Up", [("year", .int 2009), ("rating", .float "8.2"),
                    ("image-url", .str "url1")])]) := by
  exact ⟨by decide, by decide, by decide, by decide, by decide⟩

/-- C10: on the empty delimited-text working set, `add`'s duplicate check
`title in self.list_movies()` runs against the sentinel string "Empty
Database..." as a substring test, so `add(title, y, r, p)` returns the
duplicate indicator "Movie already exists" and leaves the store empty
exactly when `title` is a contiguous substring of "Empty Database...";
any other title is inserted normally. -/
theorem claim10_empty_store_add :
    ∀ (t : String) (y r p : PyVal),
      (StorageCsv.add_movie [] t y r p = ("Movie already exists", [])
        ↔ strIn t "Empty Database..." = true) ∧
      (strIn t "Empty Database..." = false →
        StorageCsv.add_movie [] t y r p
          = (t ++ " added to the database", [⟨t, y, r, p, none⟩])) := by
  intro t y r p
  cases hb : strIn t "Empty Database..." with
  | true =>
    have hdup : StorageCsv.add_movie [] t y r p = ("Movie already exists", []) := by
      simp [StorageCsv.add_movie, StorageCsv.movieMem, StorageCsv.list_movies,
        StorageCsv.buildDict, hb]
    exact ⟨⟨fun _ => rfl, fun _ => hdup⟩,
      fun hf => Bool.noConfusion hf⟩
  | false =>
    have hadd : StorageCsv.add_movie [] t y r p
        = (t ++ " added to the database", [⟨t, y, r, p, none⟩]) := by
      simp [StorageCsv.add_movie, StorageCsv.movieMem, StorageCsv.list_movies,
        StorageCsv.buildDict, hb]
    refine ⟨⟨fun he => ?_, fun hc => absurd hc (by simp [hb])⟩, fun _ => hadd⟩
    rw [hadd] at he
    exact absurd (congrArg Prod.snd he) (by simp)

/-- C10 witness: "Data" is a substring of "Empty Database..." and is
rejected on the empty store; "Up" is not a substring and is inserted. -/
theorem claim10_witness :
    strIn "Data" "Empty Database..." = true ∧
    StorageCsv.add_movie [] "Data" (.str "1999") (.float "5.0") (.str "u")
      = ("Movie already exists", []) ∧
    strIn "Up" "Empty Database..." = false ∧
    StorageCsv.add_movie [] "Up" (.str "2009") (.float "8.2") (.str "url1")
      = ("Up added to the database",
         [⟨"Up", .str "2009", .float "8.2", .str "url1", none⟩]) :=
  ⟨by decide,
   (claim10_empty_store_add "Data" (.str "1999") (.float "5.0") (.str "u")).1.mpr
     (by decide),
   by decide,
   (claim10_empty_store_add "Up" (.str "2009") (.float "8.2") (.str "url1")).2
     (by decide)⟩

end Movies
